import Mathlib

/-!
# EDU PCI driver (`src/edu/edu.c`): register protocol, interrupt path, attach/detach

Shallow embedding of the driver's device-interaction layer.

* Registers are 32 bits wide: values are naturals reduced modulo `2 ^ 32`.
* The device behind the mapped BAR is an arbitrary state machine `Mmio σ`; every
  register access the driver makes is appended, in program order, to a trace.
* The build configuration embedded is the one the source selects:
  `EDU_INTX_IRQ` defined, `EDU_NO_IRQ` not defined.
* Kernel services with a result the driver branches on (or stores) take that
  result from an explicit environment record.
-/

namespace Edu

/-! ## Machine words -/

/-- Truncation to `u32`. -/
def u32 (n : Nat) : Nat := n % 2 ^ 32

/-- Bitwise complement on `u32` (C's `~` on a `u32` operand). -/
def not32 (n : Nat) : Nat := 2 ^ 32 - 1 - u32 n

/-! ## Register map (the `#define`s of edu.c) -/

def EDU_DEVICE_LIVENESS : Nat := 0x04
def EDU_FACTORIAL_VALUE : Nat := 0x08
def EDU_FACTORIAL_STATUS : Nat := 0x20
def EDU_INTERRUPT_STATUS : Nat := 0x24
def EDU_INTERRUPT_ACK : Nat := 0x64
def EDU_DMA_SRC : Nat := 0x80
def EDU_DMA_DST : Nat := 0x88
def EDU_DMA_LEN : Nat := 0x90
def EDU_DMA_CMD : Nat := 0x98
def EDU_DMA_OFFSET : Nat := 0x40000
def DMA_MASK : Nat := 28

/-- `IRQF_SHARED` of `linux/interrupt.h`: the line may be shared with other
devices, whose interrupts then also invoke this driver's handler. -/
def IRQF_SHARED : Nat := 0x80

def ENOMEM : Int := 12
def ERESTARTSYS : Int := 512

/-- Return values of an interrupt handler (`irqreturn_t`). -/
inductive irqreturn_t
  | IRQ_NONE
  | IRQ_HANDLED
  deriving DecidableEq, Repr

/-- The `dev_id` cookie handed to `request_irq` / `free_irq`: the driver passes
either its `struct edu_instance *` or the `struct pci_dev *`. -/
inductive Cookie
  | instance_ptr
  | pdev_ptr
  deriving DecidableEq, Repr

/-- Everything the driver does that is visible outside its own locals, in
program order: register accesses, stores to the completion flag, wake-ups and
kernel service calls (with the result the kernel gave, where there is one). -/
inductive Event
  | iowrite32 (value offset : Nat)
  | ioread32 (offset value : Nat)
  | store_irq_fact_done (b : Bool)
  | wake_up_interruptible
  | pci_enable_device (ret : Int)
  | devm_kzalloc (ok : Bool)
  | pci_request_region (ret : Int)
  | pci_set_drvdata
  | register_chrdev (ret : Int)
  | pci_iomap (ok : Bool)
  | init_waitqueue_head
  | request_irq (line : Int) (flags : Nat) (cookie : Cookie) (ret : Int)
  | dma_set_mask_and_coherent (bits : Nat) (ret : Int)
  | dma_alloc_coherent (size : Nat) (cpu_addr handle : Nat)
  | dma_free_coherent (size : Nat) (cpu_addr handle : Nat)
  | free_irq (line : Int) (cookie : Cookie)
  | unregister_chrdev (major : Int)
  | pci_release_region
  | pci_disable_device
  deriving DecidableEq, Repr

/-- The fields of `struct edu_instance` other than the mapping and the wait
queue head (the mapped device is the `hw` component of `Sys`). -/
structure edu_instance where
  irq : Int
  irq_fact_done : Bool
  dma_handle : Nat
  kernel_buffer : Nat
  chr_major : Int
  deriving DecidableEq, Repr

/-- What `devm_kzalloc` hands back: zeroed memory. -/
def edu_instance.zeroed : edu_instance :=
  { irq := 0, irq_fact_done := false, dma_handle := 0, kernel_buffer := 0, chr_major := 0 }

/-- A device behind the mapped register window. A read may change the device
(reads are not idempotent in general) and yields the value on the bus. -/
structure Mmio (σ : Type) where
  read : σ → Nat → Nat × σ
  write : σ → Nat → Nat → σ

/-- Driver-visible machine state: device, instance fields, trace so far. -/
structure Sys (σ : Type) where
  hw : σ
  dev : edu_instance
  trace : List Event

/-- `iowrite32(value, dev->mmio + offset)`. -/
def iowrite32 {σ : Type} (m : Mmio σ) (value offset : Nat) (s : Sys σ) : Sys σ :=
  { s with hw := m.write s.hw offset (u32 value),
           trace := s.trace ++ [Event.iowrite32 (u32 value) offset] }

/-- `ioread32(dev->mmio + offset)`. -/
def ioread32 {σ : Type} (m : Mmio σ) (offset : Nat) (s : Sys σ) : Nat × Sys σ :=
  let r := m.read s.hw offset
  (u32 r.1, { s with hw := r.2, trace := s.trace ++ [Event.ioread32 offset (u32 r.1)] })

/-! ## Protocol operations -/

/-- `health_check` (edu.c:44-50): returns the C value of
`edu_res != (~edu_check)`, i.e. `1` when they differ and `0` when equal. -/
def health_check {σ : Type} (m : Mmio σ) (s : Sys σ) : Int × Sys σ :=
  let edu_check : Nat := 0xAB
  let s1 := iowrite32 m edu_check EDU_DEVICE_LIVENESS s
  let r := ioread32 m EDU_DEVICE_LIVENESS s1
  let edu_res := r.1
  (if edu_res ≠ not32 edu_check then 1 else 0, r.2)

/-- The value the Liveness register returns on the readback that follows the
probe write of `health_check`. -/
def liveness_readback {σ : Type} (m : Mmio σ) (s : Sys σ) : Nat :=
  (ioread32 m EDU_DEVICE_LIVENESS (iowrite32 m 0xAB EDU_DEVICE_LIVENESS s)).1

/-- The busy-wait `while (ioread32(dev->mmio + EDU_DMA_CMD) & 0x01) ;` of
`transfer_dma`, with a bound on the number of reads. The Boolean tells whether
the loop was left (a read showed bit 0 clear) within the bound. -/
def dma_busy_wait {σ : Type} (m : Mmio σ) : Nat → Sys σ → Bool × Sys σ
  | 0, s => (false, s)
  | fuel + 1, s =>
    let r := ioread32 m EDU_DMA_CMD s
    if r.1 &&& 0x01 ≠ 0 then dma_busy_wait m fuel r.2 else (true, r.2)

/-- `transfer_dma` (edu.c:67-89). `fuel` bounds the reads of the busy-wait; the
Boolean tells whether the function returned. The bound check is the source's:
both sums are `u32` sums. `ram_buf` is the buffer's kernel address plus the
offset, cast to `u32`. -/
def transfer_dma {σ : Type} (m : Mmio σ) (fuel : Nat)
    (offset_edu offset_ram length : Nat) (direction : Bool) (s : Sys σ) : Bool × Sys σ :=
  if u32 (offset_edu + length) ≥ 4096 ∨ u32 (offset_ram + length) ≥ 4096 then
    (true, s)
  else
    let ram_buf := u32 (s.dev.kernel_buffer + offset_ram)
    let edu_buf := u32 (EDU_DMA_OFFSET + offset_edu)
    let src := if direction then edu_buf else ram_buf
    let s1 := iowrite32 m src EDU_DMA_SRC s
    let dst := if direction then ram_buf else edu_buf
    let s2 := iowrite32 m dst EDU_DMA_DST s1
    let s3 := iowrite32 m length EDU_DMA_LEN s2
    let cmd := 0x01 ||| (if direction then 0x02 else 0)
    let s4 := iowrite32 m cmd EDU_DMA_CMD s3
    dma_busy_wait m fuel s4

/-- `edu_irq_handler` (edu.c:93-104). -/
def edu_irq_handler {σ : Type} (m : Mmio σ) (s : Sys σ) : irqreturn_t × Sys σ :=
  let r := ioread32 m EDU_INTERRUPT_STATUS s
  let irq_status := r.1
  if irq_status &&& 1 ≠ 0 then
    let s1 := iowrite32 m irq_status EDU_INTERRUPT_ACK r.2
    let s2 : Sys σ := { s1 with dev := { s1.dev with irq_fact_done := true },
                                trace := s1.trace ++ [Event.store_irq_fact_done true] }
    let s3 : Sys σ := { s2 with trace := s2.trace ++ [Event.wake_up_interruptible] }
    (irqreturn_t.IRQ_HANDLED, s3)
  else
    (irqreturn_t.IRQ_HANDLED, r.2)

/-- What can happen, one after another, while a caller sleeps in
`wait_event_interruptible`: the interrupt line fires (the handler runs), or a
signal is delivered to the sleeping task. -/
inductive Env
  | irq
  | signal
  deriving DecidableEq, Repr

/-- `wait_event_interruptible(dev->irq_wait, dev->irq_fact_done)`: returns `0`
at once when the condition already holds; otherwise the task sleeps and is
resumed with `0` when the condition holds after a handler run, or with
`-ERESTARTSYS` when a signal arrives first. `none`: it sleeps for good (the
environment has nothing more to offer). -/
def wait_event_interruptible {σ : Type} (m : Mmio σ) : List Env → Sys σ → Option (Int × Sys σ)
  | [], s => if s.dev.irq_fact_done then some (0, s) else none
  | e :: rest, s =>
    if s.dev.irq_fact_done then some (0, s)
    else match e with
      | Env.irq => wait_event_interruptible m rest (edu_irq_handler m s).2
      | Env.signal => some (-ERESTARTSYS, s)

/-- `compute_factorial` (edu.c:52-65), interrupt build: write the operand, wait,
read the register. The status of the wait is not looked at. -/
def compute_factorial {σ : Type} (m : Mmio σ) (env : List Env) (value : Nat) (s : Sys σ) :
    Option (Nat × Sys σ) :=
  let s1 := iowrite32 m value EDU_FACTORIAL_VALUE s
  match wait_event_interruptible m env s1 with
  | none => none
  | some w => some (ioread32 m EDU_FACTORIAL_VALUE w.2)

/-! ## Attach / detach -/

/-- Results the kernel gives to the calls of `edu_probe`, and `pdev->irq`. -/
structure ProbeEnv where
  pci_enable_device : Int
  devm_kzalloc : Bool
  pci_request_region : Int
  register_chrdev : Int
  pci_iomap : Bool
  pdev_irq : Int
  request_irq : Int
  dma_set_mask_and_coherent : Int
  dma_alloc_coherent : Option (Nat × Nat)
  deriving DecidableEq, Repr

/-- The `struct pci_dev` as the driver sees it: the device behind BAR 0, the
driver-data pointer (`pci_get_drvdata`), and the trace. -/
structure Pci (σ : Type) where
  hw : σ
  drvdata : Option edu_instance
  trace : List Event

def Pci.log {σ : Type} (p : Pci σ) (e : Event) : Pci σ :=
  { p with trace := p.trace ++ [e] }

/-- How `edu_probe` ends: with a return code, or by storing through a null
mapping (`pci_iomap` failed and its result is used unchecked). -/
inductive ProbeResult
  | returned (code : Int)
  | null_mmio_write
  deriving DecidableEq, Repr

/-- `edu_probe` (edu.c:155-200). The instance is reached through the pointer
stored by `pci_set_drvdata`, so stores to its fields after that call are
visible through `drvdata`. -/
def edu_probe {σ : Type} (m : Mmio σ) (k : ProbeEnv) (p : Pci σ) : ProbeResult × Pci σ :=
  let p1 := p.log (Event.pci_enable_device k.pci_enable_device)
  if k.pci_enable_device < 0 then (ProbeResult.returned 1, p1) else
  let p2 := p1.log (Event.devm_kzalloc k.devm_kzalloc)
  if ¬ k.devm_kzalloc then (ProbeResult.returned (-ENOMEM), p2) else
  let p3 := p2.log (Event.pci_request_region k.pci_request_region)
  if k.pci_request_region ≠ 0 then (ProbeResult.returned 1, p3) else
  let dev0 := edu_instance.zeroed
  let p4 := { p3.log Event.pci_set_drvdata with drvdata := some dev0 }
  let dev1 := { dev0 with chr_major := k.register_chrdev }
  let p5 := { p4.log (Event.register_chrdev k.register_chrdev) with drvdata := some dev1 }
  let p6 := p5.log (Event.pci_iomap k.pci_iomap)
  if ¬ k.pci_iomap then (ProbeResult.null_mmio_write, p6) else
  let s7 := iowrite32 m 0x80 EDU_FACTORIAL_STATUS { hw := p6.hw, dev := dev1, trace := p6.trace }
  let dev2 := { dev1 with irq := k.pdev_irq }
  let p7 : Pci σ := { hw := s7.hw, drvdata := some dev2,
                      trace := s7.trace ++ [Event.init_waitqueue_head] }
  let p8 := p7.log (Event.request_irq dev2.irq IRQF_SHARED Cookie.instance_ptr k.request_irq)
  if k.request_irq ≠ 0 then (ProbeResult.returned 1, p8) else
  let p9 := p8.log (Event.dma_set_mask_and_coherent DMA_MASK k.dma_set_mask_and_coherent)
  if k.dma_set_mask_and_coherent ≠ 0 then (ProbeResult.returned 1, p9) else
  let buf := k.dma_alloc_coherent.getD (0, dev2.dma_handle)
  let dev3 := { dev2 with kernel_buffer := buf.1, dma_handle := buf.2 }
  let p10 := p9.log (Event.dma_alloc_coherent 4096 buf.1 buf.2)
  (ProbeResult.returned 0, { p10 with drvdata := some dev3 })

/-- `edu_remove` (edu.c:139-150). -/
def edu_remove {σ : Type} (p : Pci σ) : Pci σ :=
  let p1 := match p.drvdata with
    | some dev =>
      ((p.log (Event.dma_free_coherent 4096 dev.kernel_buffer dev.dma_handle)).log
        (Event.free_irq dev.irq Cookie.pdev_ptr)).log (Event.unregister_chrdev dev.chr_major)
    | none => p
  (p1.log Event.pci_release_region).log Event.pci_disable_device

/-! ## Resource ledger

Reading of a trace as acquisitions and releases, following the contracts of the
kernel services: `pci_enable_device` succeeds with `0` (negative on error),
`pci_request_region` and `request_irq` succeed with `0`, `register_chrdev(0, ..)`
succeeds with the allocated major (negative on error), `pci_iomap` and
`dma_alloc_coherent` succeed with a non-null address; `free_irq` releases the
registration made on the same line with the same cookie. The instance memory
is device-managed (`devm_kzalloc`) and so is not a resource of the driver's. -/

inductive Resource
  | device_enabled
  | region
  | chrdev (major : Int)
  | mapping
  | irq (line : Int) (cookie : Cookie)
  | dma_buffer (cpu_addr handle : Nat)
  deriving DecidableEq, Repr

/-- Resources currently held, most recently acquired first, and the release
calls that named something not held. -/
structure Ledger where
  held : List Resource
  stray : List Event
  deriving DecidableEq, Repr

def Ledger.acquire (l : Ledger) (r : Resource) : Ledger :=
  { l with held := r :: l.held }

def Ledger.release (l : Ledger) (r : Resource) (e : Event) : Ledger :=
  if r ∈ l.held then { l with held := l.held.erase r } else { l with stray := l.stray ++ [e] }

def Ledger.step (l : Ledger) : Event → Ledger
  | Event.pci_enable_device ret => if ret < 0 then l else l.acquire Resource.device_enabled
  | Event.pci_request_region ret => if ret ≠ 0 then l else l.acquire Resource.region
  | Event.register_chrdev ret => if ret < 0 then l else l.acquire (Resource.chrdev ret)
  | Event.pci_iomap ok => if ok then l.acquire Resource.mapping else l
  | Event.request_irq line _ cookie ret =>
    if ret ≠ 0 then l else l.acquire (Resource.irq line cookie)
  | Event.dma_alloc_coherent _ cpu handle =>
    if cpu = 0 then l else l.acquire (Resource.dma_buffer cpu handle)
  | Event.dma_free_coherent size cpu handle =>
    l.release (Resource.dma_buffer cpu handle) (Event.dma_free_coherent size cpu handle)
  | Event.free_irq line cookie => l.release (Resource.irq line cookie) (Event.free_irq line cookie)
  | Event.unregister_chrdev major =>
    l.release (Resource.chrdev major) (Event.unregister_chrdev major)
  | Event.pci_release_region => l.release Resource.region Event.pci_release_region
  | Event.pci_disable_device => l.release Resource.device_enabled Event.pci_disable_device
  | _ => l

def ledger (trace : List Event) : Ledger :=
  trace.foldl Ledger.step { held := [], stray := [] }

/-! ## Reference states for the DMA sequence

Written directly in terms of the device's `read` and `write`, independently of
the driver functions above, to state what `transfer_dma` does to the device. -/

/-- The device after `n` consecutive reads of the Command register (0x98). -/
def cmd_hw_after {σ : Type} (m : Mmio σ) : Nat → σ → σ
  | 0, hw => hw
  | n + 1, hw => cmd_hw_after m n (m.read hw 0x98).2

/-- The 32-bit value that read number `n` (counting from 0) of consecutive reads
of the Command register returns. -/
def cmd_read {σ : Type} (m : Mmio σ) (hw : σ) (n : Nat) : Nat :=
  (m.read (cmd_hw_after m n hw) 0x98).1 % 2 ^ 32

/-- The trace of `k` consecutive reads of the Command register. -/
def cmd_reads {σ : Type} (m : Mmio σ) : Nat → σ → List Event
  | 0, _ => []
  | k + 1, hw =>
    Event.ioread32 0x98 ((m.read hw 0x98).1 % 2 ^ 32) :: cmd_reads m k (m.read hw 0x98).2

/-- The state after Source, Destination, Length and Command have been written,
in this order, with the given values. -/
def dma_started {σ : Type} (m : Mmio σ) (src dst len cmd : Nat) (s : Sys σ) : Sys σ :=
  { hw := m.write (m.write (m.write (m.write s.hw 0x80 src) 0x88 dst) 0x90 len) 0x98 cmd,
    dev := s.dev,
    trace := s.trace ++ [Event.iowrite32 src 0x80, Event.iowrite32 dst 0x88,
                         Event.iowrite32 len 0x90, Event.iowrite32 cmd 0x98] }

/-- The state after `k` further consecutive reads of the Command register. -/
def polled {σ : Type} (m : Mmio σ) (k : Nat) (s : Sys σ) : Sys σ :=
  { hw := cmd_hw_after m k s.hw, dev := s.dev, trace := s.trace ++ cmd_reads m k s.hw }

/-! ## Test devices -/

/-- A device that answers reads from a script, one value per read in order
(`0` once the script is exhausted), and ignores writes. -/
def scripted : Mmio (List Nat) where
  read := fun st _ => (st.headD 0, st.tail)
  write := fun st _ _ => st

/-- A device whose Liveness register returns the complement of what was last
written to it; every other register reads as `0`. -/
def inverting : Mmio Nat where
  read := fun st off => (if off = EDU_DEVICE_LIVENESS then not32 st else 0, st)
  write := fun st off v => if off = EDU_DEVICE_LIVENESS then v else st

/-- A device with a pending-interrupt status and a record of what was last
written to Interrupt Acknowledge: state `(status, last_ack)`. A write to 0x64
clears the acknowledged bits of the status and is recorded; a read of 0x24
returns the status. -/
def ack_recorder : Mmio (Nat × Nat) where
  read := fun st off => (if off = 0x24 then st.1 else 0, st)
  write := fun st off v => if off = 0x64 then (st.1 - (st.1 &&& v), v) else st

/-- An instance as `edu_probe` leaves it, with sample addresses: the buffer's
kernel virtual address and its (different) bus address. -/
def sample_instance : edu_instance :=
  { irq := 11, irq_fact_done := false, dma_handle := 0x0a000000,
    kernel_buffer := 0xffff888012340000, chr_major := 240 }

def boot {σ : Type} (hw : σ) (dev : edu_instance) : Sys σ :=
  { hw := hw, dev := dev, trace := [] }

/-- An unattached device: no driver data, empty trace. -/
def unattached {σ : Type} (hw : σ) : Pci σ :=
  { hw := hw, drvdata := none, trace := [] }

/-- Kernel results with every step of `edu_probe` succeeding. -/
def all_ok : ProbeEnv :=
  { pci_enable_device := 0, devm_kzalloc := true, pci_request_region := 0,
    register_chrdev := 240, pci_iomap := true, pdev_irq := 11, request_irq := 0,
    dma_set_mask_and_coherent := 0,
    dma_alloc_coherent := some (0xffff888012340000, 0x0a000000) }

/-- Kernel results with exactly one step of `edu_probe` failing. -/
def enable_fails : ProbeEnv := { all_ok with pci_enable_device := -5 }
def kzalloc_fails : ProbeEnv := { all_ok with devm_kzalloc := false }
def region_fails : ProbeEnv := { all_ok with pci_request_region := -16 }
def chrdev_fails : ProbeEnv := { all_ok with register_chrdev := -16 }
def irq_fails : ProbeEnv := { all_ok with request_irq := -16 }
def mask_fails : ProbeEnv := { all_ok with dma_set_mask_and_coherent := -5 }
def alloc_fails : ProbeEnv := { all_ok with dma_alloc_coherent := none }

/-! ## Facts about words -/

theorem u32_idem (n : Nat) : u32 (u32 n) = u32 n := by
  unfold u32; exact Nat.mod_mod _ _

theorem u32_of_lt {n : Nat} (h : n < 2 ^ 32) : u32 n = n := by
  unfold u32; exact Nat.mod_eq_of_lt h

theorem land_one_ne_zero (v : Nat) : (v &&& 1 ≠ 0) ↔ v % 2 = 1 := by
  rw [Nat.and_one_is_mod]; omega

/-! ## Health check -/

/-- Claim C1, as the code has it: `health_check` writes the probe `0xAB` to the
Liveness register and reads it back once; it returns `0` exactly when the value
read is `0xFFFFFF54` (the 32-bit complement of the probe) and `1` exactly when
it is any other value. -/
theorem health_check_zero_iff_complement {σ : Type} (m : Mmio σ) (s : Sys σ) :
    ((health_check m s).1 = 0 ↔ liveness_readback m s = 0xFFFFFF54) ∧
    ((health_check m s).1 = 1 ↔ liveness_readback m s ≠ 0xFFFFFF54) ∧
    (health_check m s).2.trace =
      s.trace ++ [Event.iowrite32 0xAB EDU_DEVICE_LIVENESS,
                  Event.ioread32 EDU_DEVICE_LIVENESS (liveness_readback m s)] := by
  have hc : not32 0xAB = 0xFFFFFF54 := by decide
  refine ⟨?_, ?_, ?_⟩
  · simp only [health_check, liveness_readback, hc]
    split <;> simp_all
  · simp only [health_check, liveness_readback, hc]
    split <;> simp_all
  · simp [health_check, liveness_readback, ioread32, iowrite32, u32]

/-- Claim C1 refuted as stated: against the device that inverts on readback the
value read is `0xFFFFFF54`, and `health_check` returns `0`, not a non-zero
value; against a device that echoes the probe it returns `1`. -/
theorem health_check_inverting_returns_zero :
    liveness_readback inverting (boot 0 sample_instance) = 0xFFFFFF54 ∧
    (health_check inverting (boot 0 sample_instance)).1 = 0 ∧
    liveness_readback scripted (boot [0xAB] sample_instance) ≠ 0xFFFFFF54 ∧
    (health_check scripted (boot [0xAB] sample_instance)).1 = 1 := by
  decide

/-! ## DMA transfer -/

/-- If read number `n < fuel` of the Command register is the first to show
bit 0 clear, the busy-wait is left after exactly `n + 1` reads. -/
theorem dma_busy_wait_idle_at {σ : Type} (m : Mmio σ) (fuel n : Nat) (s : Sys σ)
    (hn : n < fuel) (hbusy : ∀ i, i < n → cmd_read m s.hw i % 2 = 1)
    (hidle : cmd_read m s.hw n % 2 = 0) :
    dma_busy_wait m fuel s = (true, polled m (n + 1) s) := by
  induction fuel generalizing n s with
  | zero => omega
  | succ k ih =>
    have hv : (ioread32 m EDU_DMA_CMD s).1 = cmd_read m s.hw 0 := rfl
    cases n with
    | zero =>
      have hb : ¬ ((ioread32 m EDU_DMA_CMD s).1 &&& 0x01 ≠ 0) := by
        rw [land_one_ne_zero, hv]; omega
      simp only [dma_busy_wait]
      rw [if_neg hb]
      rfl
    | succ n' =>
      have hb : (ioread32 m EDU_DMA_CMD s).1 &&& 0x01 ≠ 0 := by
        rw [land_one_ne_zero, hv]; exact hbusy 0 (by omega)
      have hstep : dma_busy_wait m (k + 1) s = dma_busy_wait m k (ioread32 m EDU_DMA_CMD s).2 := by
        simp only [dma_busy_wait]; exact if_pos hb
      rw [hstep, ih n' (ioread32 m EDU_DMA_CMD s).2 (by omega)
        (fun i hi => hbusy (i + 1) (by omega)) hidle]
      simp [polled, ioread32, cmd_hw_after, cmd_reads, EDU_DMA_CMD, u32]

/-- If each of the first `fuel` reads of the Command register shows bit 0 set,
the busy-wait is still running after `fuel` reads. -/
theorem dma_busy_wait_all_busy {σ : Type} (m : Mmio σ) (fuel : Nat) (s : Sys σ)
    (hbusy : ∀ i, i < fuel → cmd_read m s.hw i % 2 = 1) :
    dma_busy_wait m fuel s = (false, polled m fuel s) := by
  induction fuel generalizing s with
  | zero => simp [dma_busy_wait, polled, cmd_hw_after, cmd_reads]
  | succ k ih =>
    have hv : (ioread32 m EDU_DMA_CMD s).1 = cmd_read m s.hw 0 := rfl
    have hb : (ioread32 m EDU_DMA_CMD s).1 &&& 0x01 ≠ 0 := by
      rw [land_one_ne_zero, hv]; exact hbusy 0 (by omega)
    have hstep : dma_busy_wait m (k + 1) s = dma_busy_wait m k (ioread32 m EDU_DMA_CMD s).2 := by
      simp only [dma_busy_wait]; exact if_pos hb
    rw [hstep, ih (ioread32 m EDU_DMA_CMD s).2 (fun i hi => hbusy (i + 1) (by omega))]
    simp [polled, ioread32, cmd_hw_after, cmd_reads, EDU_DMA_CMD, u32]

/-- The bound check of `transfer_dma` lets an in-bounds request through. -/
theorem transfer_dma_in_bounds {σ : Type} (m : Mmio σ) (fuel : Nat)
    (offset_edu offset_ram length : Nat) (direction : Bool) (s : Sys σ)
    (h_edu : offset_edu + length < 4096) (h_ram : offset_ram + length < 4096) :
    transfer_dma m fuel offset_edu offset_ram length direction s =
      dma_busy_wait m fuel
        (iowrite32 m (if direction then 3 else 1) EDU_DMA_CMD
          (iowrite32 m length EDU_DMA_LEN
            (iowrite32 m (if direction then u32 (s.dev.kernel_buffer + offset_ram)
                else EDU_DMA_OFFSET + offset_edu) EDU_DMA_DST
              (iowrite32 m (if direction then EDU_DMA_OFFSET + offset_edu
                else u32 (s.dev.kernel_buffer + offset_ram)) EDU_DMA_SRC s)))) := by
  have e1 : u32 (offset_edu + length) = offset_edu + length := u32_of_lt (by omega)
  have e2 : u32 (offset_ram + length) = offset_ram + length := u32_of_lt (by omega)
  have e3 : u32 (EDU_DMA_OFFSET + offset_edu) = EDU_DMA_OFFSET + offset_edu :=
    u32_of_lt (by unfold EDU_DMA_OFFSET; omega)
  have hg : ¬ (u32 (offset_edu + length) ≥ 4096 ∨ u32 (offset_ram + length) ≥ 4096) := by
    rw [e1, e2]; omega
  unfold transfer_dma
  rw [if_neg hg]
  cases direction <;> simp [e3]

/-- Claim C4: an in-bounds `transfer_dma` performs on the device exactly four
register writes, in the order Source (0x80), Destination (0x88), Length (0x90)
with `length`, Command (0x98), and after them only reads of Command. With
`direction` set, Source gets the device-side address `0x40000 + offset_edu`,
Destination the host-side address and Command `0x03`; with it clear, Source
gets the host-side address, Destination the device-side address and Command
`0x01`. If read number `n` of Command is the first that shows bit 0 clear, the
function returns after exactly `n + 1` reads; while every read shows bit 0
set it has not returned; so it returns only after a read of Command that
shows bit 0 clear. The resulting device state, instance and trace are given
in full. -/
theorem transfer_dma_write_sequence {σ : Type} (m : Mmio σ) (fuel : Nat)
    (offset_edu offset_ram length : Nat) (direction : Bool) (s : Sys σ)
    (h_edu : offset_edu + length < 4096) (h_ram : offset_ram + length < 4096) :
    (∀ n, n < fuel →
      (∀ i, i < n → cmd_read m (dma_started m
        (if direction then 0x40000 + offset_edu else u32 (s.dev.kernel_buffer + offset_ram))
        (if direction then u32 (s.dev.kernel_buffer + offset_ram) else 0x40000 + offset_edu)
        length (if direction then 0x03 else 0x01) s).hw i % 2 = 1) →
      cmd_read m (dma_started m
        (if direction then 0x40000 + offset_edu else u32 (s.dev.kernel_buffer + offset_ram))
        (if direction then u32 (s.dev.kernel_buffer + offset_ram) else 0x40000 + offset_edu)
        length (if direction then 0x03 else 0x01) s).hw n % 2 = 0 →
      transfer_dma m fuel offset_edu offset_ram length direction s =
        (true, polled m (n + 1) (dma_started m
          (if direction then 0x40000 + offset_edu else u32 (s.dev.kernel_buffer + offset_ram))
          (if direction then u32 (s.dev.kernel_buffer + offset_ram) else 0x40000 + offset_edu)
          length (if direction then 0x03 else 0x01) s))) ∧
    ((∀ i, i < fuel → cmd_read m (dma_started m
        (if direction then 0x40000 + offset_edu else u32 (s.dev.kernel_buffer + offset_ram))
        (if direction then u32 (s.dev.kernel_buffer + offset_ram) else 0x40000 + offset_edu)
        length (if direction then 0x03 else 0x01) s).hw i % 2 = 1) →
      transfer_dma m fuel offset_edu offset_ram length direction s =
        (false, polled m fuel (dma_started m
          (if direction then 0x40000 + offset_edu else u32 (s.dev.kernel_buffer + offset_ram))
          (if direction then u32 (s.dev.kernel_buffer + offset_ram) else 0x40000 + offset_edu)
          length (if direction then 0x03 else 0x01) s))) ∧
    ((transfer_dma m fuel offset_edu offset_ram length direction s).1 = true →
      ∃ n, n < fuel ∧ cmd_read m (dma_started m
        (if direction then 0x40000 + offset_edu else u32 (s.dev.kernel_buffer + offset_ram))
        (if direction then u32 (s.dev.kernel_buffer + offset_ram) else 0x40000 + offset_edu)
        length (if direction then 0x03 else 0x01) s).hw n % 2 = 0) := by
  have hlen : u32 length = length := u32_of_lt (by omega)
  have hedu : u32 (0x40000 + offset_edu) = 0x40000 + offset_edu := u32_of_lt (by omega)
  have hstart : iowrite32 m (if direction then 3 else 1) EDU_DMA_CMD
      (iowrite32 m length EDU_DMA_LEN
        (iowrite32 m (if direction then u32 (s.dev.kernel_buffer + offset_ram)
            else EDU_DMA_OFFSET + offset_edu) EDU_DMA_DST
          (iowrite32 m (if direction then EDU_DMA_OFFSET + offset_edu
            else u32 (s.dev.kernel_buffer + offset_ram)) EDU_DMA_SRC s))) =
      dma_started m
        (if direction then 0x40000 + offset_edu else u32 (s.dev.kernel_buffer + offset_ram))
        (if direction then u32 (s.dev.kernel_buffer + offset_ram) else 0x40000 + offset_edu)
        length (if direction then 0x03 else 0x01) s := by
    have h3 : u32 3 = 3 := by decide
    have h1 : u32 1 = 1 := by decide
    cases direction <;>
      simp [iowrite32, dma_started, EDU_DMA_OFFSET, EDU_DMA_SRC, EDU_DMA_DST, EDU_DMA_LEN,
        EDU_DMA_CMD, hlen, hedu, u32_idem, h3, h1]
  rw [transfer_dma_in_bounds m fuel offset_edu offset_ram length direction s h_edu h_ram, hstart]
  refine ⟨?_, ?_, ?_⟩
  · intro n hn hbusy hidle
    exact dma_busy_wait_idle_at m fuel n _ hn hbusy hidle
  · intro hbusy
    exact dma_busy_wait_all_busy m fuel _ hbusy
  · intro hret
    by_contra hno
    have hbusy : ∀ i, i < fuel → cmd_read m (dma_started m
        (if direction then 0x40000 + offset_edu else u32 (s.dev.kernel_buffer + offset_ram))
        (if direction then u32 (s.dev.kernel_buffer + offset_ram) else 0x40000 + offset_edu)
        length (if direction then 0x03 else 0x01) s).hw i % 2 = 1 := by
      intro i hi
      rcases Nat.mod_two_eq_zero_or_one (cmd_read m (dma_started m
        (if direction then 0x40000 + offset_edu else u32 (s.dev.kernel_buffer + offset_ram))
        (if direction then u32 (s.dev.kernel_buffer + offset_ram) else 0x40000 + offset_edu)
        length (if direction then 0x03 else 0x01) s).hw i) with h0 | h1
      · exact absurd ⟨i, hi, h0⟩ hno
      · exact h1
    rw [dma_busy_wait_all_busy m fuel _ hbusy] at hret
    simp at hret

/-- Witness for C4: a device-to-host transfer of 16 bytes against a device whose
Command register shows busy twice and then idle: the function returns after
the third read, with the four writes and the three reads in the trace. -/
theorem transfer_dma_write_sequence_witness :
    (0 + 16 < 4096 ∧ 0 + 16 < 4096) ∧ 2 < 5 ∧
    (∀ i, i < 2 → cmd_read scripted (dma_started scripted
      (if true = true then 0x40000 + 0 else u32 ((boot [1, 1, 0] sample_instance).dev.kernel_buffer + 0))
      (if true = true then u32 ((boot [1, 1, 0] sample_instance).dev.kernel_buffer + 0) else 0x40000 + 0)
      16 (if true = true then 0x03 else 0x01) (boot [1, 1, 0] sample_instance)).hw i % 2 = 1) ∧
    transfer_dma scripted 5 0 0 16 true (boot [1, 1, 0] sample_instance) =
      (true, polled scripted (2 + 1) (dma_started scripted
        (if true = true then 0x40000 + 0 else u32 ((boot [1, 1, 0] sample_instance).dev.kernel_buffer + 0))
        (if true = true then u32 ((boot [1, 1, 0] sample_instance).dev.kernel_buffer + 0) else 0x40000 + 0)
        16 (if true = true then 0x03 else 0x01) (boot [1, 1, 0] sample_instance))) ∧
    (polled scripted (2 + 1) (dma_started scripted 0x40000 0x12340000 16 3
        (boot [1, 1, 0] sample_instance))).trace =
      [Event.iowrite32 0x40000 0x80, Event.iowrite32 0x12340000 0x88, Event.iowrite32 16 0x90,
       Event.iowrite32 3 0x98, Event.ioread32 0x98 1, Event.ioread32 0x98 1,
       Event.ioread32 0x98 0] :=
  ⟨by decide, by decide, by decide,
   (transfer_dma_write_sequence scripted 5 0 0 16 true (boot [1, 1, 0] sample_instance)
      (by decide) (by decide)).1 2 (by decide) (by decide) (by decide),
   by decide⟩

/-- Claim C2 at the failing input `offset_edu = 0xFFFFFFFF`, `offset_ram = 0`,
`length = 1`: the request exceeds the window (`0xFFFFFFFF + 1 ≥ 4096`), yet the
`u32` sum wraps to `0`, the check passes, and `transfer_dma` writes Source,
Destination, Length and Command (the device-side address wraps to `0x3FFFF`). -/
theorem transfer_dma_wrapped_sum_not_declined :
    0xFFFFFFFF + 1 ≥ 4096 ∧
    (transfer_dma scripted 1 0xFFFFFFFF 0 1 false (boot [] sample_instance)).2.trace =
      [Event.iowrite32 0x12340000 0x80, Event.iowrite32 0x3FFFF 0x88,
       Event.iowrite32 1 0x90, Event.iowrite32 1 0x98, Event.ioread32 0x98 0] := by
  decide

/-- Claim C3 at the failing input: the buffer's kernel virtual address is
`0xffff888012340000` and its bus address (`dma_handle`) is `0x0a000000`. For
the in-bounds request `offset_edu = 0`, `offset_ram = 0x10`, `length = 16`,
device-to-host, `transfer_dma` programs Destination with `0x12340010`, the low
32 bits of kernel address plus offset, which is not `dma_handle + offset_ram`
(`0x0a000010`). Source is `0x40000 + offset_edu`. -/
theorem transfer_dma_programs_kernel_address :
    sample_instance.kernel_buffer = 0xffff888012340000 ∧
    sample_instance.dma_handle + 0x10 = 0x0a000010 ∧
    (transfer_dma scripted 1 0 0x10 16 true (boot [] sample_instance)).2.trace =
      [Event.iowrite32 0x40000 0x80, Event.iowrite32 0x12340010 0x88,
       Event.iowrite32 16 0x90, Event.iowrite32 3 0x98, Event.ioread32 0x98 0] := by
  decide

/-! ## Interrupt handler -/

/-- The handler on a status with bit 0 set. -/
theorem edu_irq_handler_of_pending {σ : Type} (m : Mmio σ) (s : Sys σ)
    (h : (ioread32 m EDU_INTERRUPT_STATUS s).1 % 2 = 1) :
    (edu_irq_handler m s).2.trace =
        s.trace ++ [Event.ioread32 0x24 (ioread32 m EDU_INTERRUPT_STATUS s).1,
                    Event.iowrite32 (ioread32 m EDU_INTERRUPT_STATUS s).1 0x64,
                    Event.store_irq_fact_done true,
                    Event.wake_up_interruptible] ∧
      (edu_irq_handler m s).2.dev.irq_fact_done = true := by
  have h' : (ioread32 m EDU_INTERRUPT_STATUS s).1 &&& 1 ≠ 0 := (land_one_ne_zero _).mpr h
  have hu : u32 (ioread32 m EDU_INTERRUPT_STATUS s).1 = (ioread32 m EDU_INTERRUPT_STATUS s).1 :=
    u32_idem _
  unfold edu_irq_handler
  simp only [h', ne_eq, not_false_eq_true, if_true]
  simp only [iowrite32, hu]
  simp [ioread32, EDU_INTERRUPT_STATUS, EDU_INTERRUPT_ACK]

/-- The handler on a status with bit 0 clear. -/
theorem edu_irq_handler_of_idle {σ : Type} (m : Mmio σ) (s : Sys σ)
    (h : (ioread32 m EDU_INTERRUPT_STATUS s).1 % 2 = 0) :
    (edu_irq_handler m s).2 = (ioread32 m EDU_INTERRUPT_STATUS s).2 := by
  have h' : ¬ ((ioread32 m EDU_INTERRUPT_STATUS s).1 &&& 1 ≠ 0) := by
    rw [land_one_ne_zero]; omega
  unfold edu_irq_handler
  simp only [h', if_false]

/-- Claim C5: when the value `v` read from Interrupt Status (0x24) has bit 0
set, `edu_irq_handler` does, in this order: the status read, one register
write that reaches the device (that same `v` to Interrupt Acknowledge, 0x64),
the store of `true` to `irq_fact_done`, the wake-up of the waiter; nothing
else. The resulting device state, instance and trace are given in full: the
device has seen the read of 0x24 and then the write of `v` to 0x64 and no
other access, and the instance differs only in `irq_fact_done = true`. -/
theorem edu_irq_handler_acks_observed_status {σ : Type} (m : Mmio σ) (s : Sys σ)
    (h : (m.read s.hw 0x24).1 % 2 ^ 32 % 2 = 1) :
    edu_irq_handler m s =
      (irqreturn_t.IRQ_HANDLED,
        { hw := m.write (m.read s.hw 0x24).2 0x64 ((m.read s.hw 0x24).1 % 2 ^ 32),
          dev := { s.dev with irq_fact_done := true },
          trace := s.trace ++
            [Event.ioread32 0x24 ((m.read s.hw 0x24).1 % 2 ^ 32),
             Event.iowrite32 ((m.read s.hw 0x24).1 % 2 ^ 32) 0x64,
             Event.store_irq_fact_done true,
             Event.wake_up_interruptible] }) := by
  have hv : (ioread32 m EDU_INTERRUPT_STATUS s).1 = (m.read s.hw 0x24).1 % 2 ^ 32 := rfl
  have h' : (ioread32 m EDU_INTERRUPT_STATUS s).1 &&& 1 ≠ 0 := by
    rw [land_one_ne_zero, hv]; exact h
  have hu : u32 ((m.read s.hw 0x24).1 % 2 ^ 32) = (m.read s.hw 0x24).1 % 2 ^ 32 :=
    u32_idem _
  unfold edu_irq_handler
  dsimp only
  rw [if_pos h']
  simp only [iowrite32, hv, hu]
  simp [ioread32, EDU_INTERRUPT_STATUS, EDU_INTERRUPT_ACK, u32]

/-- Witness for C5: status `0x101` (bits 0 and 8) is acknowledged as `0x101`,
and the write reaches the device (here a device that records its last write
to the acknowledge register). -/
theorem edu_irq_handler_acks_observed_status_witness :
    (ack_recorder.read (0x101, 0) 0x24).1 % 2 ^ 32 % 2 = 1 ∧
    edu_irq_handler ack_recorder (boot (0x101, 0) sample_instance) =
      (irqreturn_t.IRQ_HANDLED,
        { hw := ack_recorder.write (ack_recorder.read (boot (0x101, 0) sample_instance).hw 0x24).2
            0x64 ((ack_recorder.read (boot (0x101, 0) sample_instance).hw 0x24).1 % 2 ^ 32),
          dev := { (boot (0x101, 0) sample_instance).dev with irq_fact_done := true },
          trace := (boot (0x101, 0) sample_instance).trace ++
            [Event.ioread32 0x24
               ((ack_recorder.read (boot (0x101, 0) sample_instance).hw 0x24).1 % 2 ^ 32),
             Event.iowrite32
               ((ack_recorder.read (boot (0x101, 0) sample_instance).hw 0x24).1 % 2 ^ 32) 0x64,
             Event.store_irq_fact_done true,
             Event.wake_up_interruptible] }) ∧
    (edu_irq_handler ack_recorder (boot (0x101, 0) sample_instance)).2.hw = (0, 0x101) :=
  ⟨by decide,
   edu_irq_handler_acks_observed_status ack_recorder (boot (0x101, 0) sample_instance)
     (by decide),
   by decide⟩

/-- The handler's return value does not depend on the status it read: it is
`IRQ_HANDLED` in both branches. With bit 0 clear the handler only reads the
status register and leaves the instance unchanged. -/
theorem edu_irq_handler_return_value {σ : Type} (m : Mmio σ) (s : Sys σ) :
    (edu_irq_handler m s).1 = irqreturn_t.IRQ_HANDLED ∧
    ((ioread32 m EDU_INTERRUPT_STATUS s).1 % 2 = 0 →
      (edu_irq_handler m s).2.trace =
          s.trace ++ [Event.ioread32 0x24 (ioread32 m EDU_INTERRUPT_STATUS s).1] ∧
        (edu_irq_handler m s).2.dev = s.dev) := by
  constructor
  · unfold edu_irq_handler
    dsimp only
    split_ifs <;> rfl
  · intro h
    rw [edu_irq_handler_of_idle m s h]
    exact ⟨rfl, rfl⟩

/-- Claim C10 at the failing input: the handler is registered with
`IRQF_SHARED`, it is invoked while the status register reads `0` (bit 0 clear:
the interrupt is not this device's), it writes no register and leaves
`irq_fact_done` as it was, and its return value is `IRQ_HANDLED`, not
`IRQ_NONE`. -/
theorem edu_irq_handler_idle_still_handled :
    Event.request_irq 11 IRQF_SHARED Cookie.instance_ptr 0 ∈
      (edu_probe scripted all_ok (unattached [])).2.trace ∧
    (ioread32 scripted EDU_INTERRUPT_STATUS (boot [0] sample_instance)).1 % 2 = 0 ∧
    (edu_irq_handler scripted (boot [0] sample_instance)).2.trace = [Event.ioread32 0x24 0] ∧
    (edu_irq_handler scripted (boot [0] sample_instance)).2.dev.irq_fact_done = false ∧
    (edu_irq_handler scripted (boot [0] sample_instance)).1 = irqreturn_t.IRQ_HANDLED ∧
    (edu_irq_handler scripted (boot [0] sample_instance)).1 ≠ irqreturn_t.IRQ_NONE := by
  decide

/-! ## Factorial: the wait and the completion flag -/

/-- With the flag already set, the wait returns `0` at once, whatever the
environment would do. -/
theorem wait_event_interruptible_of_done {σ : Type} (m : Mmio σ) (env : List Env) (s : Sys σ)
    (h : s.dev.irq_fact_done = true) :
    wait_event_interruptible m env s = some (0, s) := by
  cases env <;> simp [wait_event_interruptible, h]

/-- With the flag clear on entry and no signal delivered, a wait that returns
does so with status `0`, right after a handler run that read a status with
bit 0 set, acknowledged it, set the flag and woke the waiter. -/
theorem wait_event_interruptible_returns_after_handler {σ : Type} (m : Mmio σ)
    (env : List Env) (s : Sys σ) (hf : s.dev.irq_fact_done = false)
    (hns : Env.signal ∉ env) (st : Int) (s' : Sys σ)
    (h : wait_event_interruptible m env s = some (st, s')) :
    st = 0 ∧ ∃ (pre : List Event) (v : Nat), v % 2 = 1 ∧
      s'.trace = s.trace ++ pre ++
        [Event.ioread32 0x24 v, Event.iowrite32 v 0x64, Event.store_irq_fact_done true,
         Event.wake_up_interruptible] := by
  induction env generalizing s with
  | nil => simp [wait_event_interruptible, hf] at h
  | cons e rest ih =>
    cases e with
    | signal => simp at hns
    | irq =>
      have hns' : Env.signal ∉ rest := fun hm => hns (List.mem_cons_of_mem _ hm)
      have hstep : wait_event_interruptible m (Env.irq :: rest) s =
          wait_event_interruptible m rest (edu_irq_handler m s).2 := by
        simp [wait_event_interruptible, hf]
      rw [hstep] at h
      rcases Nat.mod_two_eq_zero_or_one (ioread32 m EDU_INTERRUPT_STATUS s).1 with hb | hb
      · rw [edu_irq_handler_of_idle m s hb] at h
        obtain ⟨hst, pre, v, hv, ht⟩ := ih (ioread32 m EDU_INTERRUPT_STATUS s).2 hf hns' h
        refine ⟨hst, Event.ioread32 EDU_INTERRUPT_STATUS (ioread32 m EDU_INTERRUPT_STATUS s).1
          :: pre, v, hv, ?_⟩
        rw [ht]
        simp [ioread32]
      · obtain ⟨ht, hd⟩ := edu_irq_handler_of_pending m s hb
        rw [wait_event_interruptible_of_done m rest _ hd] at h
        simp only [Option.some.injEq, Prod.mk.injEq] at h
        obtain ⟨h0, hs⟩ := h
        refine ⟨h0.symm, [], (ioread32 m EDU_INTERRUPT_STATUS s).1, hb, ?_⟩
        rw [← hs, ht]
        simp

/-- With the flag set on entry, `compute_factorial` does not wait: whatever
the environment would do, it writes the operand and reads the register back at
once, and nothing resets the flag. -/
theorem compute_factorial_of_stale_flag {σ : Type} (m : Mmio σ) (env : List Env) (value : Nat)
    (s : Sys σ) (h : s.dev.irq_fact_done = true) :
    compute_factorial m env value s =
      some (ioread32 m EDU_FACTORIAL_VALUE (iowrite32 m value EDU_FACTORIAL_VALUE s)) := by
  have h1 : (iowrite32 m value EDU_FACTORIAL_VALUE s).dev.irq_fact_done = true := h
  simp [compute_factorial, wait_event_interruptible_of_done m env _ h1]

/-- Claim C6 at the failing input: two requests in a row on one instance. The
first (operand 5) completes normally: the handler signals and the call returns
120, leaving `irq_fact_done` true. The second (operand 6) starts in that state:
the flag is true when the operand is written, and with no interrupt at all the
call passes its wait at once and returns what the register holds (here still
the operand, 6); its part of the trace is the operand write followed directly
by the result read, with no handler run in between. -/
theorem compute_factorial_second_request_skips_wait :
    (compute_factorial scripted [Env.irq] 5 (boot [1, 120, 6] sample_instance)).map
        (fun r => (r.1, r.2.dev.irq_fact_done, r.2.trace)) =
      some (120, true,
        [Event.iowrite32 5 0x08, Event.ioread32 0x24 1, Event.iowrite32 1 0x64,
         Event.store_irq_fact_done true, Event.wake_up_interruptible,
         Event.ioread32 0x08 120]) ∧
    ((compute_factorial scripted [Env.irq] 5 (boot [1, 120, 6] sample_instance)).bind
        (fun r => (compute_factorial scripted [] 6 r.2).map
          (fun r2 => ((iowrite32 scripted 6 EDU_FACTORIAL_VALUE r.2).dev.irq_fact_done,
                      r2.1, r2.2.trace.drop r.2.trace.length)))) =
      some (true, 6, [Event.iowrite32 6 0x08, Event.ioread32 0x08 6]) := by
  decide

/-- Claim C7, as the code has it: the status of the wait is discarded. Whatever
status the wait returns, `compute_factorial` returns the value then read from
the Factorial Value register; in particular a call whose wait is cancelled by a
signal (flag clear on entry, the wait returns `-ERESTARTSYS`) returns, as an
ordinary `u32` result, the register's content at that moment. -/
theorem compute_factorial_discards_wait_status {σ : Type} (m : Mmio σ) (rest : List Env)
    (value : Nat) (s : Sys σ) (hf : s.dev.irq_fact_done = false) :
    (∀ (env : List Env) (st : Int) (s2 : Sys σ),
      wait_event_interruptible m env (iowrite32 m value EDU_FACTORIAL_VALUE s) = some (st, s2) →
        compute_factorial m env value s = some (ioread32 m EDU_FACTORIAL_VALUE s2)) ∧
    wait_event_interruptible m (Env.signal :: rest) (iowrite32 m value EDU_FACTORIAL_VALUE s) =
      some (-ERESTARTSYS, iowrite32 m value EDU_FACTORIAL_VALUE s) ∧
    compute_factorial m (Env.signal :: rest) value s =
      some (ioread32 m EDU_FACTORIAL_VALUE (iowrite32 m value EDU_FACTORIAL_VALUE s)) := by
  have hf1 : (iowrite32 m value EDU_FACTORIAL_VALUE s).dev.irq_fact_done = false := hf
  have hw : wait_event_interruptible m (Env.signal :: rest)
      (iowrite32 m value EDU_FACTORIAL_VALUE s) =
      some (-ERESTARTSYS, iowrite32 m value EDU_FACTORIAL_VALUE s) := by
    simp [wait_event_interruptible, hf1]
  refine ⟨?_, hw, ?_⟩
  · intro env st s2 h
    simp [compute_factorial, h]
  · simp [compute_factorial, hw]

/-- Witness for C7's amended statement: a call cancelled while the register
still holds the operand `5` returns `5`. -/
theorem compute_factorial_discards_wait_status_witness :
    (boot [5] sample_instance).dev.irq_fact_done = false ∧
    compute_factorial scripted [Env.signal] 5 (boot [5] sample_instance) =
      some (ioread32 scripted EDU_FACTORIAL_VALUE
        (iowrite32 scripted 5 EDU_FACTORIAL_VALUE (boot [5] sample_instance))) :=
  ⟨by decide,
   (compute_factorial_discards_wait_status scripted [] 5 (boot [5] sample_instance)
      (by decide)).2.2⟩

/-- Claim C7 refuted as stated: a call whose wait is cancelled by a signal (the
wait returns `-ERESTARTSYS`) and a call that completes normally (the handler
signals, the wait returns `0`) both return the value `120`. -/
theorem compute_factorial_cancelled_looks_completed :
    (wait_event_interruptible scripted [Env.signal]
        (iowrite32 scripted 5 EDU_FACTORIAL_VALUE (boot [120] sample_instance))).map Prod.fst
      = some (-512) ∧
    (wait_event_interruptible scripted [Env.irq]
        (iowrite32 scripted 5 EDU_FACTORIAL_VALUE (boot [1, 120] sample_instance))).map Prod.fst
      = some 0 ∧
    (compute_factorial scripted [Env.signal] 5 (boot [120] sample_instance)).map Prod.fst
      = some 120 ∧
    (compute_factorial scripted [Env.irq] 5 (boot [1, 120] sample_instance)).map Prod.fst
      = some 120 := by
  decide

/-! ## Attach -/

/-- Claim C8, as the code has it: the steps of `edu_probe` whose result is
checked are device enable, instance allocation, region reservation, interrupt
registration and DMA mask setup. If one of them fails (the earlier ones having
succeeded), `edu_probe` stops right there, attempting no later step, and
reports the failure by a non-zero return value: `1`, or `-ENOMEM` for the
instance allocation. When it is device enable that fails, nothing is held on
return. -/
theorem edu_probe_reports_checked_failures {σ : Type} (m : Mmio σ) (k : ProbeEnv) (hw : σ) :
    (k.pci_enable_device < 0 →
      (edu_probe m k (unattached hw)).1 = ProbeResult.returned 1 ∧
      (edu_probe m k (unattached hw)).2.trace = [Event.pci_enable_device k.pci_enable_device] ∧
      (ledger (edu_probe m k (unattached hw)).2.trace).held = []) ∧
    (0 ≤ k.pci_enable_device → k.devm_kzalloc = false →
      (edu_probe m k (unattached hw)).1 = ProbeResult.returned (-12) ∧
      (edu_probe m k (unattached hw)).2.trace =
        [Event.pci_enable_device k.pci_enable_device, Event.devm_kzalloc false]) ∧
    (0 ≤ k.pci_enable_device → k.devm_kzalloc = true → k.pci_request_region ≠ 0 →
      (edu_probe m k (unattached hw)).1 = ProbeResult.returned 1 ∧
      (edu_probe m k (unattached hw)).2.trace =
        [Event.pci_enable_device k.pci_enable_device, Event.devm_kzalloc true,
         Event.pci_request_region k.pci_request_region]) ∧
    (0 ≤ k.pci_enable_device → k.devm_kzalloc = true → k.pci_request_region = 0 →
      k.pci_iomap = true → k.request_irq ≠ 0 →
      (edu_probe m k (unattached hw)).1 = ProbeResult.returned 1 ∧
      (edu_probe m k (unattached hw)).2.trace =
        [Event.pci_enable_device k.pci_enable_device, Event.devm_kzalloc true,
         Event.pci_request_region 0, Event.pci_set_drvdata,
         Event.register_chrdev k.register_chrdev, Event.pci_iomap true,
         Event.iowrite32 0x80 0x20, Event.init_waitqueue_head,
         Event.request_irq k.pdev_irq 0x80 Cookie.instance_ptr k.request_irq]) ∧
    (0 ≤ k.pci_enable_device → k.devm_kzalloc = true → k.pci_request_region = 0 →
      k.pci_iomap = true → k.request_irq = 0 → k.dma_set_mask_and_coherent ≠ 0 →
      (edu_probe m k (unattached hw)).1 = ProbeResult.returned 1 ∧
      (edu_probe m k (unattached hw)).2.trace =
        [Event.pci_enable_device k.pci_enable_device, Event.devm_kzalloc true,
         Event.pci_request_region 0, Event.pci_set_drvdata,
         Event.register_chrdev k.register_chrdev, Event.pci_iomap true,
         Event.iowrite32 0x80 0x20, Event.init_waitqueue_head,
         Event.request_irq k.pdev_irq 0x80 Cookie.instance_ptr 0,
         Event.dma_set_mask_and_coherent 28 k.dma_set_mask_and_coherent]) := by
  refine ⟨?_, ?_, ?_, ?_, ?_⟩
  · intro h
    simp [edu_probe, h, Pci.log, unattached, ledger, Ledger.step]
  · intro h1 h2
    simp [edu_probe, not_lt.mpr h1, h2, Pci.log, unattached, ENOMEM]
  · intro h1 h2 h3
    simp [edu_probe, not_lt.mpr h1, h2, h3, Pci.log, unattached]
  · intro h1 h2 h3 h4 h5
    simp [edu_probe, not_lt.mpr h1, h2, h3, h4, h5, Pci.log, unattached, iowrite32,
      EDU_FACTORIAL_STATUS, u32, IRQF_SHARED]
  · intro h1 h2 h3 h4 h5 h6
    simp [edu_probe, not_lt.mpr h1, h2, h3, h4, h5, h6, Pci.log, unattached, iowrite32,
      EDU_FACTORIAL_STATUS, u32, DMA_MASK, IRQF_SHARED]

/-- Witness for C8's amended statement: each of the five checked steps failing
in turn. -/
theorem edu_probe_reports_checked_failures_witness :
    (enable_fails.pci_enable_device < 0 ∧
      (edu_probe scripted enable_fails (unattached [])).1 = ProbeResult.returned 1) ∧
    (kzalloc_fails.devm_kzalloc = false ∧
      (edu_probe scripted kzalloc_fails (unattached [])).1 = ProbeResult.returned (-12)) ∧
    (region_fails.pci_request_region ≠ 0 ∧
      (edu_probe scripted region_fails (unattached [])).1 = ProbeResult.returned 1) ∧
    (irq_fails.request_irq ≠ 0 ∧
      (edu_probe scripted irq_fails (unattached [])).1 = ProbeResult.returned 1) ∧
    (mask_fails.dma_set_mask_and_coherent ≠ 0 ∧
      (edu_probe scripted mask_fails (unattached [])).1 = ProbeResult.returned 1) :=
  ⟨⟨by decide,
    ((edu_probe_reports_checked_failures scripted enable_fails []).1 (by decide)).1⟩,
   ⟨by decide,
    ((edu_probe_reports_checked_failures scripted kzalloc_fails []).2.1
      (by decide) (by decide)).1⟩,
   ⟨by decide,
    ((edu_probe_reports_checked_failures scripted region_fails []).2.2.1
      (by decide) (by decide) (by decide)).1⟩,
   ⟨by decide,
    ((edu_probe_reports_checked_failures scripted irq_fails []).2.2.2.1
      (by decide) (by decide) (by decide) (by decide) (by decide)).1⟩,
   ⟨by decide,
    ((edu_probe_reports_checked_failures scripted mask_fails []).2.2.2.2
      (by decide) (by decide) (by decide) (by decide) (by decide) (by decide)).1⟩⟩

/-- Claim C8 refuted as stated: when `request_irq` fails, `edu_probe` returns
`1` with the mapping, the control surface, the region and the enabled device
all still held; when the instance allocation fails, the device stays enabled;
and when `register_chrdev` or `dma_alloc_coherent` fails, `edu_probe` returns
`0`, reporting no failure. -/
theorem edu_probe_failure_keeps_resources :
    (edu_probe scripted irq_fails (unattached [])).1 = ProbeResult.returned 1 ∧
    (ledger (edu_probe scripted irq_fails (unattached [])).2.trace).held =
      [Resource.mapping, Resource.chrdev 240, Resource.region, Resource.device_enabled] ∧
    (ledger (edu_probe scripted kzalloc_fails (unattached [])).2.trace).held =
      [Resource.device_enabled] ∧
    (edu_probe scripted chrdev_fails (unattached [])).1 = ProbeResult.returned 0 ∧
    (edu_probe scripted alloc_fails (unattached [])).1 = ProbeResult.returned 0 := by
  decide

/-! ## Detach -/

/-- Claim C9, as the code has it. After an `edu_probe` in which every step
succeeded, `edu_remove` makes exactly five calls, once each and in this order:
`dma_free_coherent` on the buffer and handle `dma_alloc_coherent` gave,
`free_irq` on the line `request_irq` was given, `unregister_chrdev` on the major
`register_chrdev` gave, `pci_release_region`, `pci_disable_device`; afterwards
the DMA buffer, the control surface, the region and the enabled device are no
longer held. `edu_remove` keeps no record of what was acquired: in every
state it ends with `pci_release_region` and `pci_disable_device`, before which
it makes the three other calls, on the values stored in the instance, when
driver data is set, and no call when it is not. -/
theorem edu_remove_after_full_probe {σ : Type} (m : Mmio σ) (k : ProbeEnv) (hw : σ)
    (cpu handle : Nat)
    (h_enable : 0 ≤ k.pci_enable_device) (h_alloc : k.devm_kzalloc = true)
    (h_region : k.pci_request_region = 0) (h_chrdev : 0 ≤ k.register_chrdev)
    (h_map : k.pci_iomap = true) (h_irq : k.request_irq = 0)
    (h_mask : k.dma_set_mask_and_coherent = 0)
    (h_buf : k.dma_alloc_coherent = some (cpu, handle)) (h_cpu : cpu ≠ 0) :
    (edu_probe m k (unattached hw)).1 = ProbeResult.returned 0 ∧
    (∃ cookie : Cookie,
      (edu_remove (edu_probe m k (unattached hw)).2).trace =
        (edu_probe m k (unattached hw)).2.trace ++
          [Event.dma_free_coherent 4096 cpu handle, Event.free_irq k.pdev_irq cookie,
           Event.unregister_chrdev k.register_chrdev, Event.pci_release_region,
           Event.pci_disable_device]) ∧
    (Resource.dma_buffer cpu handle ∉
        (ledger (edu_remove (edu_probe m k (unattached hw)).2).trace).held ∧
      Resource.chrdev k.register_chrdev ∉
        (ledger (edu_remove (edu_probe m k (unattached hw)).2).trace).held ∧
      Resource.region ∉ (ledger (edu_remove (edu_probe m k (unattached hw)).2).trace).held ∧
      Resource.device_enabled ∉
        (ledger (edu_remove (edu_probe m k (unattached hw)).2).trace).held) ∧
    (∀ p : Pci σ, ∃ pre : List Event,
      (edu_remove p).trace =
        p.trace ++ pre ++ [Event.pci_release_region, Event.pci_disable_device] ∧
      (p.drvdata = none → pre = []) ∧
      (∀ dev : edu_instance, p.drvdata = some dev → ∃ cookie : Cookie,
        pre = [Event.dma_free_coherent 4096 dev.kernel_buffer dev.dma_handle,
               Event.free_irq dev.irq cookie, Event.unregister_chrdev dev.chr_major])) := by
  have hprobe : edu_probe m k (unattached hw) =
      (ProbeResult.returned 0,
        { hw := m.write hw 0x20 0x80,
          drvdata := some { irq := k.pdev_irq, irq_fact_done := false, dma_handle := handle,
                            kernel_buffer := cpu, chr_major := k.register_chrdev },
          trace := [Event.pci_enable_device k.pci_enable_device, Event.devm_kzalloc true,
            Event.pci_request_region 0, Event.pci_set_drvdata,
            Event.register_chrdev k.register_chrdev, Event.pci_iomap true,
            Event.iowrite32 0x80 0x20, Event.init_waitqueue_head,
            Event.request_irq k.pdev_irq 0x80 Cookie.instance_ptr 0,
            Event.dma_set_mask_and_coherent 28 0,
            Event.dma_alloc_coherent 4096 cpu handle] }) := by
    simp [edu_probe, not_lt.mpr h_enable, h_alloc, h_region, h_map, h_irq, h_mask, h_buf,
      Pci.log, unattached, iowrite32, EDU_FACTORIAL_STATUS, u32, DMA_MASK,
      edu_instance.zeroed, IRQF_SHARED]
  have hremove : (edu_remove (edu_probe m k (unattached hw)).2).trace =
      (edu_probe m k (unattached hw)).2.trace ++
        [Event.dma_free_coherent 4096 cpu handle, Event.free_irq k.pdev_irq Cookie.pdev_ptr,
         Event.unregister_chrdev k.register_chrdev, Event.pci_release_region,
         Event.pci_disable_device] := by
    rw [hprobe]; simp [edu_remove, Pci.log]
  have hledger : (ledger (edu_remove (edu_probe m k (unattached hw)).2).trace).held =
      [Resource.irq k.pdev_irq Cookie.instance_ptr, Resource.mapping] := by
    rw [hremove, hprobe]
    simp [ledger, Ledger.step, Ledger.acquire, Ledger.release, not_lt.mpr h_enable,
      not_lt.mpr h_chrdev, h_cpu]
  refine ⟨by rw [hprobe], ⟨Cookie.pdev_ptr, hremove⟩, ?_, ?_⟩
  · rw [hledger]; simp
  · intro p
    cases hd : p.drvdata with
    | none =>
      exact ⟨[], by simp [edu_remove, hd, Pci.log], fun _ => rfl, fun dev h => by simp at h⟩
    | some dev =>
      refine ⟨[Event.dma_free_coherent 4096 dev.kernel_buffer dev.dma_handle,
              Event.free_irq dev.irq Cookie.pdev_ptr, Event.unregister_chrdev dev.chr_major],
        by simp [edu_remove, hd, Pci.log], fun h => by simp at h, ?_⟩
      intro dev' h
      have hdev : dev = dev' := Option.some.inj h
      exact ⟨Cookie.pdev_ptr, by rw [hdev]⟩

/-- Witness for C9's amended statement: every step of `edu_probe` succeeds. -/
theorem edu_remove_after_full_probe_witness :
    (0 ≤ all_ok.pci_enable_device ∧ all_ok.devm_kzalloc = true ∧
      all_ok.pci_request_region = 0 ∧ 0 ≤ all_ok.register_chrdev ∧ all_ok.pci_iomap = true ∧
      all_ok.request_irq = 0 ∧ all_ok.dma_set_mask_and_coherent = 0 ∧
      all_ok.dma_alloc_coherent = some (0xffff888012340000, 0x0a000000) ∧
      0xffff888012340000 ≠ 0) ∧
    (edu_probe scripted all_ok (unattached [])).1 = ProbeResult.returned 0 ∧
    Resource.region ∉
      (ledger (edu_remove (edu_probe scripted all_ok (unattached [])).2).trace).held :=
  ⟨by decide,
   (edu_remove_after_full_probe scripted all_ok [] 0xffff888012340000 0x0a000000
      (by decide) (by decide) (by decide) (by decide) (by decide) (by decide) (by decide)
      (by decide) (by decide)).1,
   (edu_remove_after_full_probe scripted all_ok [] 0xffff888012340000 0x0a000000
      (by decide) (by decide) (by decide) (by decide) (by decide) (by decide) (by decide)
      (by decide) (by decide)).2.2.1.2.2.1⟩

/-- Claim C9 refuted as stated. After a fully successful `edu_probe`,
`edu_remove` leaves the interrupt registration and the register mapping held:
it never unmaps, and its `free_irq` names the `pci_dev` as cookie where
`request_irq` was given the instance. After an `edu_probe` that failed at
device enable, `edu_remove` still calls `pci_release_region` and
`pci_disable_device`, releasing what was never acquired. After one that failed
at `request_irq`, it frees a DMA buffer and an interrupt that were never
acquired. -/
theorem edu_remove_mismatches_probe :
    ledger (edu_remove (edu_probe scripted all_ok (unattached [])).2).trace =
      { held := [Resource.irq 11 Cookie.instance_ptr, Resource.mapping],
        stray := [Event.free_irq 11 Cookie.pdev_ptr] } ∧
    ledger (edu_remove (edu_probe scripted enable_fails (unattached [])).2).trace =
      { held := [], stray := [Event.pci_release_region, Event.pci_disable_device] } ∧
    ledger (edu_remove (edu_probe scripted irq_fails (unattached [])).2).trace =
      { held := [Resource.mapping],
        stray := [Event.dma_free_coherent 4096 0 0, Event.free_irq 11 Cookie.pdev_ptr] } := by
  decide

end Edu
